import Mathlib

/-!
Verification of the Telemetry Ingestion, Movement-Inference and
Safety-Reward Engine of the GeoGuardian repository
(src/src/contexts/LocationContext.tsx).

Numbers are modelled as rationals (JS numbers in the relevant ranges and
operations behave exactly: all literals, sums, products and the divisions
that occur here are exact in the inputs considered), counters as integers,
and calendar months as the value of Date.getMonth (a natural number).
-/

namespace GeoGuardian

/-- JS Math.round: round half up, as floor of x + 1/2. -/
def jsRound (q : ℚ) : ℤ := ⌊q + 1/2⌋

/-- JS Array.prototype.slice with a negative start index -n: keep the last
n elements (all of them when the list is shorter). -/
def jsSliceLast (n : ℕ) (l : List α) : List α := l.drop (l.length - n)

/-- One entry of the movement history: the (time, lat, lon) tuple pushed by
the watchPosition callback (LocationContext.tsx line 360). -/
structure Movement where
  time : ℚ
  lat : ℚ
  lon : ℚ
deriving DecidableEq

/-- LocationContext.tsx line 361: the movement-history update
setMovementHistory(prev => [...prev.slice(-10), newMovement]). -/
def pushMovement (prev : List Movement) (newMovement : Movement) : List Movement :=
  jsSliceLast 10 prev ++ [newMovement]

/-- LocationContext.tsx lines 150-166, smoothSpeed: the updated speed
history [...speedHistory, newSpeed].slice(-5) together with the rounded
linearly weighted average over it. -/
def smoothSpeed (speedHistory : List ℚ) (newSpeed : ℚ) : List ℚ × ℚ :=
  let updatedHistory := jsSliceLast 5 (speedHistory ++ [newSpeed])
  let weightedSum := (updatedHistory.enum.map (fun p => p.2 * ((p.1 : ℚ) + 1))).sum
  let totalWeight := (updatedHistory.enum.map (fun p => ((p.1 : ℚ) + 1))).sum
  (updatedHistory, (jsRound (weightedSum / totalWeight) : ℚ))

/-- LocationContext.tsx lines 92-112, calculateSpeed, with the haversine
distance (lines 93-100, a pure function of the two fixes) abstracted as the
parameter distance in meters: derived speed in mph with the implausibility
rejection rule, then clamped below at 0 after rounding. -/
def calculateSpeedFromDistance (distance : ℚ) (timeDiff : ℚ) : ℚ :=
  let timeInSeconds := timeDiff / 1000
  let speedMps := distance / timeInSeconds
  let speedMph := speedMps * 2.237
  if speedMph > 150 ∨ (speedMph > 80 ∧ timeDiff < 5000) then 0
  else max 0 (jsRound speedMph : ℚ)

/-- The lastPosition record kept by the watchPosition callback
(LocationContext.tsx line 388): position, fix time and smoothed speed. -/
structure LastPos where
  lat : ℚ
  lon : ℚ
  time : ℚ
  speed : ℚ
deriving DecidableEq

/-- LocationContext.tsx lines 368-382: the fallback branch of the candidate
speed when no usable device speed is reported. distance stands for the
haversine distance between lastPosition and the current fix. -/
def speedFromLastPos : Option LastPos → ℚ → ℚ → ℚ
  | some lp, now, distance =>
      if now - lp.time > 2000 then calculateSpeedFromDistance distance (now - lp.time)
      else lp.speed
  | none, _, _ => 0

/-- LocationContext.tsx lines 363-382: candidate speed of one fix. If the
device reports a speed (not null) that is non-negative, it is converted to
mph and rounded; otherwise the fallback on lastPosition applies. -/
def candidateSpeed (reported : Option ℚ) (lastPosition : Option LastPos)
    (now distance : ℚ) : ℚ :=
  match reported with
  | some s => if 0 ≤ s then (jsRound (s * 2.237) : ℚ)
              else speedFromLastPos lastPosition now distance
  | none => speedFromLastPos lastPosition now distance

/-- LocationContext.tsx lines 391 and 407: isMoving is
detectMovement(accuracy) || smoothedSpeed > 2, and the published isDriving
flag is isMoving && smoothedSpeed > 2. -/
def isDrivingCalc (detectedMovement : Bool) (smoothedSpeed : ℚ) : Bool :=
  let isMoving := detectedMovement || decide (smoothedSpeed > 2)
  isMoving && decide (smoothedSpeed > 2)

/-- The reward-relevant fields of the user profile mutated by
updateUserRewards (LocationContext.tsx lines 1110-1192).
lastSpeedCheckMonth is Date.getMonth() of lastSpeedCheck. -/
structure UserProfile where
  totalRewards : ℚ
  weeklyRewards : ℚ
  monthlyRewards : ℚ
  safetyScore : ℚ
  speedViolations : ℤ
  averageSpeed : ℚ
  totalDrivingTime : ℚ
  lastSpeedCheckMonth : ℕ
deriving DecidableEq

/-- LocationContext.tsx lines 1114-1125: the calendar rollover step. When
the current month differs from the month of lastSpeedCheck, the working
copies of monthlyRewards and speedViolations are reset to 0; nothing else
is touched. -/
def monthlyRollover (currentMonth : ℕ) (p : UserProfile) : UserProfile :=
  if currentMonth ≠ p.lastSpeedCheckMonth then
    { p with monthlyRewards := 0, speedViolations := 0 }
  else p

/-- LocationContext.tsx lines 1137-1158: the per-observation reward delta
(rewardChange) from the speed bands and the overriding exercise band. -/
def bandRewardChange (speed duration : ℚ) : ℚ :=
  let fromBands : ℚ :=
    if speed ≤ 65 then (⌊duration / 60⌋ : ℚ) * 8
    else if speed > 75 then -(⌊duration / 60⌋ : ℚ) * 15
    else if speed > 65 then -(⌊duration / 60⌋ : ℚ) * 3
    else 0
  if 3 ≤ speed ∧ speed ≤ 15 then (⌊duration / 60⌋ : ℚ) * 5 else fromBands

/-- LocationContext.tsx lines 1137-1158: the per-observation safety-score
delta (safetyScoreChange). -/
def bandScoreChange (speed : ℚ) : ℚ :=
  let fromBands : ℚ :=
    if speed ≤ 65 then 0.2
    else if speed > 75 then -0.8
    else if speed > 65 then -0.1
    else 0
  if 3 ≤ speed ∧ speed ≤ 15 then 0.1 else fromBands

/-- LocationContext.tsx lines 1142-1146: the violation increment, 1 exactly
when speed > 75 (and speed is not ≤ 65), else 0. -/
def violationIncrement (speed : ℚ) : ℤ :=
  if speed ≤ 65 then 0 else if speed > 75 then 1 else 0

/-- LocationContext.tsx lines 1160-1167: the monthly aggregate bonus added
on top of the band reward when accumulated driving time reaches 30 hours. -/
def monthlyBonus (totalTime newAverageSpeed : ℚ) : ℚ :=
  if totalTime ≥ 30 * 60 then
    if newAverageSpeed ≤ 65 then 150
    else if newAverageSpeed > 75 then -300
    else 0
  else 0

/-- LocationContext.tsx lines 1128-1131: incremental time-weighted average
speed. -/
def newAverageSpeedOf (p : UserProfile) (speed duration : ℚ) : ℚ :=
  let totalTime := p.totalDrivingTime + duration
  if totalTime > 0 then
    (p.averageSpeed * p.totalDrivingTime + speed * duration) / totalTime
  else speed

/-- The full per-observation reward delta of one updateUserRewards call:
band/exercise reward plus the monthly aggregate bonus. -/
def rewardDelta (p : UserProfile) (speed duration : ℚ) : ℚ :=
  bandRewardChange speed duration +
    monthlyBonus (p.totalDrivingTime + duration) (newAverageSpeedOf p speed duration)

/-- LocationContext.tsx lines 1110-1179, updateUserRewards without the
persistence step: rollover, average update, deltas, then the clamped
application building updatedProfile. currentMonth is Date.getMonth() of
now. -/
def updateUserRewardsCore (p : UserProfile) (currentMonth : ℕ)
    (speed duration : ℚ) : UserProfile :=
  let rolled := monthlyRollover currentMonth p
  let totalTime := p.totalDrivingTime + duration
  let newAverageSpeed := newAverageSpeedOf p speed duration
  let rewardChange := bandRewardChange speed duration + monthlyBonus totalTime newAverageSpeed
  let safetyScoreChange := bandScoreChange speed
  let newSpeedViolations := rolled.speedViolations + violationIncrement speed
  { totalRewards := max 0 (p.totalRewards + rewardChange)
    weeklyRewards := p.weeklyRewards + max 0 rewardChange
    monthlyRewards := rolled.monthlyRewards + max 0 rewardChange
    safetyScore := max 0 (min 100 (p.safetyScore + safetyScoreChange))
    speedViolations := newSpeedViolations
    averageSpeed := newAverageSpeed
    totalDrivingTime := totalTime
    lastSpeedCheckMonth := currentMonth }

/-- LocationContext.tsx lines 1113-1191: the try block computes the updated
profile, persists it (updateDoc), and only then installs it in memory
(setUserProfile); the catch block only logs. The persist argument models
the store write, which may fail. -/
def updateUserRewardsRun (persist : UserProfile → Except String Unit)
    (p : UserProfile) (currentMonth : ℕ) (speed duration : ℚ) : UserProfile :=
  let body : Except String UserProfile := do
    let updatedProfile := updateUserRewardsCore p currentMonth speed duration
    let _ ← persist updatedProfile
    pure updatedProfile
  match body with
  | .ok q => q
  | .error _ => p

/-- The SafetyRewardState defaults at account creation:
{0, 0, 0, 100, 0, 0, 0, now}. -/
def defaultProfile : UserProfile := ⟨0, 0, 0, 100, 0, 0, 0, 0⟩

/-- One (month of now, speed, duration) observation fed to
updateUserRewards. -/
structure Obs where
  month : ℕ
  speed : ℚ
  duration : ℚ

/-- A sequence of updateUserRewards calls applied in order. -/
def applyObservations (p : UserProfile) (l : List Obs) : UserProfile :=
  l.foldl (fun st o => updateUserRewardsCore st o.month o.speed o.duration) p

/-- An adversarial sequence of repeated speed-90 observations. -/
def adversarialObs : List Obs := [⟨0, 90, 60⟩, ⟨0, 90, 60⟩, ⟨0, 90, 60⟩]

lemma safetyScore_step_bounds (p : UserProfile) (m : ℕ) (s d : ℚ) :
    0 ≤ (updateUserRewardsCore p m s d).safetyScore ∧
      (updateUserRewardsCore p m s d).safetyScore ≤ 100 := by
  constructor
  · exact le_max_left 0 _
  · exact max_le (by norm_num) (min_le_left 100 _)

/-- C1. The claimed deltas (+480 for speed 60 over 60 minutes, -900 for
speed 90 over 60 minutes) match the inline comments of updateUserRewards
(8 CDT per minute, -15 CDT per minute), but the code divides the duration,
already in minutes, by 60 before multiplying, so the implemented deltas are
+8 and -15. The score deltas (+0.2, -0.8) and the violation increment for
speed 90 do hold. -/
theorem rewardDelta_hour_granularity :
    rewardDelta defaultProfile 60 60 = 8 ∧ (8 : ℚ) ≠ 480 ∧
    bandScoreChange 60 = 0.2 ∧ violationIncrement 60 = 0 ∧
    rewardDelta defaultProfile 90 60 = -15 ∧ (-15 : ℚ) ≠ -900 ∧
    bandScoreChange 90 = -0.8 ∧ violationIncrement 90 = 1 ∧
    (updateUserRewardsCore defaultProfile 0 90 60).speedViolations =
      defaultProfile.speedViolations + 1 := by
  refine ⟨?_, by norm_num, ?_, ?_, ?_, by norm_num, ?_, ?_, ?_⟩
  · norm_num [rewardDelta, bandRewardChange, monthlyBonus, newAverageSpeedOf, defaultProfile]
  · norm_num [bandScoreChange]
  · norm_num [violationIncrement]
  · norm_num [rewardDelta, bandRewardChange, monthlyBonus, newAverageSpeedOf, defaultProfile]
  · norm_num [bandScoreChange]
  · norm_num [violationIncrement]
  · norm_num [updateUserRewardsCore, monthlyRollover, violationIncrement, defaultProfile]

/-- C2. An exercise-band observation with speed 10 and duration 30 minutes
yields rewardDelta 0 in the code, not the claimed +150: the exercise branch
computes floor(30 / 60) * 5 = 0, although its comment promises 5 CDT per
minute. The override itself is real (shown at duration 120, where the
exercise value 10 replaces the under-65 band value 16), and the score delta
is +0.1. -/
theorem rewardDelta_exercise_zero :
    rewardDelta defaultProfile 10 30 = 0 ∧ (0 : ℚ) ≠ 150 ∧
    bandRewardChange 10 120 = 10 ∧ bandRewardChange 16 120 = 16 ∧
    bandScoreChange 10 = 0.1 := by
  refine ⟨?_, by norm_num, ?_, ?_, ?_⟩
  · norm_num [rewardDelta, bandRewardChange, monthlyBonus, newAverageSpeedOf, defaultProfile]
  · norm_num [bandRewardChange]
  · norm_num [bandRewardChange]
  · norm_num [bandScoreChange]

/-- C3. Starting from any state with safetyScore in [0, 100], every
sequence of updateUserRewards calls with arbitrary speeds and non-negative
durations keeps safetyScore in [0, 100]: each application clamps the score
with max 0 (min 100 _). -/
theorem safetyScore_bounded (p : UserProfile) (h0 : 0 ≤ p.safetyScore)
    (h1 : p.safetyScore ≤ 100) (l : List Obs)
    (hd : ∀ o ∈ l, 0 ≤ o.duration) :
    0 ≤ (applyObservations p l).safetyScore ∧
      (applyObservations p l).safetyScore ≤ 100 := by
  induction l generalizing p with
  | nil => exact ⟨h0, h1⟩
  | cons o t ih =>
      have hstep := safetyScore_step_bounds p o.month o.speed o.duration
      have hrw : applyObservations p (o :: t) =
          applyObservations (updateUserRewardsCore p o.month o.speed o.duration) t := rfl
      rw [hrw]
      exact ih _ hstep.1 hstep.2 (fun x hx => hd x (List.mem_cons_of_mem o hx))

/-- Witness for C3 at the default profile under repeated speed-90
observations. -/
theorem safetyScore_bounded_witness :
    0 ≤ (applyObservations defaultProfile adversarialObs).safetyScore ∧
      (applyObservations defaultProfile adversarialObs).safetyScore ≤ 100 :=
  safetyScore_bounded defaultProfile (by norm_num [defaultProfile])
    (by norm_num [defaultProfile]) adversarialObs
    (by
      intro o ho
      simp only [adversarialObs, List.mem_cons, List.not_mem_nil, or_false] at ho
      rcases ho with rfl | rfl | rfl <;> norm_num)

/-- C4. One updateUserRewards call sets totalRewards to
max 0 (old + rewardDelta), hence totalRewards stays non-negative, adds
max 0 rewardDelta to weeklyRewards (never decreasing it), and, when no
calendar rollover intervenes, adds max 0 rewardDelta to monthlyRewards
(never decreasing it). -/
theorem rewardCounters_update (p : UserProfile) (m : ℕ) (s d : ℚ) :
    (updateUserRewardsCore p m s d).totalRewards =
      max 0 (p.totalRewards + rewardDelta p s d) ∧
    0 ≤ (updateUserRewardsCore p m s d).totalRewards ∧
    (updateUserRewardsCore p m s d).weeklyRewards =
      p.weeklyRewards + max 0 (rewardDelta p s d) ∧
    p.weeklyRewards ≤ (updateUserRewardsCore p m s d).weeklyRewards ∧
    (m = p.lastSpeedCheckMonth →
      (updateUserRewardsCore p m s d).monthlyRewards =
        p.monthlyRewards + max 0 (rewardDelta p s d) ∧
      p.monthlyRewards ≤ (updateUserRewardsCore p m s d).monthlyRewards) := by
  refine ⟨rfl, le_max_left 0 _, rfl, le_add_of_nonneg_right (le_max_left 0 _), ?_⟩
  intro hm
  have hroll : monthlyRollover m p = p := by simp [monthlyRollover, hm]
  constructor
  · show (monthlyRollover m p).monthlyRewards + _ = _
    rw [hroll]
    rfl
  · show p.monthlyRewards ≤ (monthlyRollover m p).monthlyRewards + _
    rw [hroll]
    exact le_add_of_nonneg_right (le_max_left 0 _)

/-- Witness for C4 at the default profile with a matching month. -/
theorem rewardCounters_update_witness :
    0 ≤ (updateUserRewardsCore defaultProfile 0 90 60).totalRewards ∧
    (updateUserRewardsCore defaultProfile 0 90 60).monthlyRewards =
      defaultProfile.monthlyRewards + max 0 (rewardDelta defaultProfile 90 60) :=
  ⟨(rewardCounters_update defaultProfile 0 90 60).2.1,
   ((rewardCounters_update defaultProfile 0 90 60).2.2.2.2 rfl).1⟩

/-- C5. The speed history respects its cap of 5, but the movement-history
update [...prev.slice(-10), newMovement] keeps the last 10 entries AND
appends one more, so from the empty history eleven consecutive fixes leave
11 entries — one more than the cap of 10 promised by the spec and by the
inline comment (Keep last 10 positions). -/
theorem movementHistory_cap_exceeded :
    (∀ (h : List ℚ) (s : ℚ), (smoothSpeed h s).1.length ≤ 5) ∧
    (List.foldl pushMovement []
      ((List.range 11).map (fun i => ⟨(i : ℚ), 0, 0⟩))).length = 11 := by
  constructor
  · intro h s
    simp only [smoothSpeed, jsSliceLast, List.length_drop]
    omega
  · decide

/-- C6. The calendar-rollover step of updateUserRewards zeroes the working
copies of monthlyRewards and speedViolations exactly when the month of now
differs from the month of lastSpeedCheck, leaves totalRewards,
weeklyRewards, averageSpeed and totalDrivingTime untouched in that case,
and changes nothing at all when the months agree. -/
theorem monthlyRollover_frame (m : ℕ) (p : UserProfile) :
    (m ≠ p.lastSpeedCheckMonth →
      (monthlyRollover m p).monthlyRewards = 0 ∧
      (monthlyRollover m p).speedViolations = 0 ∧
      (monthlyRollover m p).totalRewards = p.totalRewards ∧
      (monthlyRollover m p).weeklyRewards = p.weeklyRewards ∧
      (monthlyRollover m p).averageSpeed = p.averageSpeed ∧
      (monthlyRollover m p).totalDrivingTime = p.totalDrivingTime) ∧
    (m = p.lastSpeedCheckMonth → monthlyRollover m p = p) := by
  constructor
  · intro h
    simp [monthlyRollover, h]
  · intro h
    simp [monthlyRollover, h]

/-- Witness for C6: a rollover from month 0 to month 6 resets the monthly
counter, and a call in the same month changes nothing. -/
theorem monthlyRollover_frame_witness :
    (monthlyRollover 6 defaultProfile).monthlyRewards = 0 ∧
      monthlyRollover 0 defaultProfile = defaultProfile :=
  ⟨((monthlyRollover_frame 6 defaultProfile).1 (by decide)).1,
   (monthlyRollover_frame 0 defaultProfile).2 rfl⟩

/-- C7 counterexample. At exactly 2000 ms elapsed the claim demands the
derived haversine speed (here 0, the two fixes coinciding), but the code
takes the strict branch timeDiff > 2000 and reuses the previous smoothed
speed 10. -/
theorem candidateSpeed_at_exactly_2000ms :
    (2000 : ℚ) - (0 : ℚ) ≥ 2000 ∧
    candidateSpeed none (some ⟨0, 0, 0, 10⟩) 2000 0 = 10 ∧
    calculateSpeedFromDistance 0 (2000 - 0) = 0 ∧ (10 : ℚ) ≠ 0 := by
  refine ⟨by norm_num, ?_, ?_, by norm_num⟩
  · norm_num [candidateSpeed, speedFromLastPos]
  · norm_num [calculateSpeedFromDistance, jsRound]

/-- C7 as amended. Candidate-speed selection per fix: a reported
non-negative device speed yields round(reported * 2.237); otherwise with a
prior fix and strictly more than 2000 ms elapsed the candidate is the
derived speed with the rejection rule applied (0 whenever the derived mph
exceeds 150, or exceeds 80 with elapsed time under 5000 ms); at 2000 ms or
less the previous smoothed speed is reused unchanged. -/
theorem candidateSpeed_selection (s : ℚ) (lpo : Option LastPos)
    (lp : LastPos) (now dist : ℚ) :
    (0 ≤ s → candidateSpeed (some s) lpo now dist = (jsRound (s * 2.237) : ℚ)) ∧
    (now - lp.time > 2000 →
      candidateSpeed none (some lp) now dist =
        calculateSpeedFromDistance dist (now - lp.time)) ∧
    (now - lp.time ≤ 2000 →
      candidateSpeed none (some lp) now dist = lp.speed) ∧
    (dist / ((now - lp.time) / 1000) * 2.237 > 150 ∨
        (dist / ((now - lp.time) / 1000) * 2.237 > 80 ∧ now - lp.time < 5000) →
      calculateSpeedFromDistance dist (now - lp.time) = 0) := by
  refine ⟨?_, ?_, ?_, ?_⟩
  · intro h
    simp [candidateSpeed, h]
  · intro h
    simp [candidateSpeed, speedFromLastPos, if_pos h]
  · intro h
    simp [candidateSpeed, speedFromLastPos, not_lt.mpr h]
  · intro h
    unfold calculateSpeedFromDistance
    rw [if_pos h]

/-- Witness for C7: each selection branch exercised at concrete inputs. -/
theorem candidateSpeed_selection_witness :
    candidateSpeed (some 10) none 0 0 = 22 ∧
    candidateSpeed none (some ⟨0, 0, 0, 7⟩) 2001 0 = 0 ∧
    candidateSpeed none (some ⟨0, 0, 0, 7⟩) 1000 0 = 7 ∧
    calculateSpeedFromDistance 500 (3000 - (0 : ℚ)) = 0 := by
  refine ⟨?_, ?_, ?_, ?_⟩
  · exact ((candidateSpeed_selection 10 none ⟨0, 0, 0, 0⟩ 0 0).1
      (by norm_num)).trans (by norm_num [jsRound])
  · exact ((candidateSpeed_selection 0 (some ⟨0, 0, 0, 7⟩) ⟨0, 0, 0, 7⟩ 2001 0).2.1
      (by norm_num)).trans (by norm_num [calculateSpeedFromDistance, jsRound])
  · exact (candidateSpeed_selection 0 (some ⟨0, 0, 0, 7⟩) ⟨0, 0, 0, 7⟩ 1000 0).2.2.1
      (by norm_num)
  · exact (candidateSpeed_selection 0 none ⟨0, 0, 0, 0⟩ 3000 500).2.2.2
      (Or.inl (by norm_num))

/-- C8. The published driving flag
(detectMovement || smoothedSpeed > 2) && smoothedSpeed > 2 equals
smoothedSpeed > 2 as a Boolean function of its inputs: the isMoving
disjunct is absorbed. -/
theorem isDriving_absorption :
    ∀ (dm : Bool) (s : ℚ), isDrivingCalc dm s = decide (s > 2) := by
  intro dm s
  cases dm <;> simp [isDrivingCalc]

/-- C9. When the store write fails, updateUserRewards leaves the in-memory
profile entirely unchanged and propagates no exception: the updated profile
is installed only after the persist succeeds, and the catch block merely
logs. -/
theorem atomic_on_persist_failure (persist : UserProfile → Except String Unit)
    (p : UserProfile) (m : ℕ) (s d : ℚ) (e : String)
    (h : persist (updateUserRewardsCore p m s d) = Except.error e) :
    updateUserRewardsRun persist p m s d = p := by
  simp [updateUserRewardsRun, h]

/-- Witness for C9: a persist that always fails leaves the default profile
untouched. -/
theorem atomic_on_persist_failure_witness :
    updateUserRewardsRun (fun _ => Except.error "persist failed")
      defaultProfile 0 60 60 = defaultProfile :=
  atomic_on_persist_failure (fun _ => Except.error "persist failed")
    defaultProfile 0 60 60 "persist failed" rfl

/-- C10. An exercise-band observation (3 ≤ speed ≤ 15) in the same calendar
month as lastSpeedCheck never changes speedViolations: the increment
requires speed > 75, disjoint from the exercise band. -/
theorem exercise_band_keeps_violations (p : UserProfile) (m : ℕ) (s d : ℚ)
    (h3 : 3 ≤ s) (h15 : s ≤ 15) (hm : m = p.lastSpeedCheckMonth) :
    (updateUserRewardsCore p m s d).speedViolations = p.speedViolations := by
  have hv : violationIncrement s = 0 := by
    unfold violationIncrement
    rw [if_pos (h15.trans (by norm_num))]
  simp [updateUserRewardsCore, monthlyRollover, hm, hv]

/-- Witness for C10 at speed 10 for 30 minutes in the same month. -/
theorem exercise_band_keeps_violations_witness :
    (updateUserRewardsCore defaultProfile 0 10 30).speedViolations =
      defaultProfile.speedViolations :=
  exercise_band_keeps_violations defaultProfile 0 10 30 (by norm_num)
    (by norm_num) rfl

end GeoGuardian
